import Mathlib

/-!
Shallow embedding of the translation demo app:
the Translation Session Controller (src/App.tsx, src/types.ts) and the
Document Export Pipeline (handleExportPDF in src/App.tsx).

State is modelled explicitly; the asynchronous `handleTranslate` is split
into its synchronous start phase (guard + set InFlight) and its resolve
phase (the `setState(prev => ...)` applied when the external call settles),
mirroring the actual control flow of the React code.
-/

namespace Demo

/-- The `Language` enum from src/types.ts.  Its enum values are the display
labels; `label` recovers the string value of each member. -/
inductive Language where
  | AUTO
  | ENGLISH
  | CHINESE
deriving DecidableEq

/-- The string value of each `Language` enum member (src/types.ts). -/
def Language.label : Language → String
  | .AUTO => "Auto Detect"
  | .ENGLISH => "English"
  | .CHINESE => "Chinese (Simplified)"

/-- The `TranslationState` interface from src/types.ts.
`error = none` models `error: null`. -/
structure TranslationState where
  sourceLang : Language
  targetLang : Language
  inputText : String
  outputText : String
  isTranslating : Bool
  error : Option String
deriving DecidableEq

/-- The initial state passed to `useState` in src/App.tsx. -/
def initialState : TranslationState :=
  { sourceLang := Language.AUTO
    targetLang := Language.ENGLISH
    inputText := ""
    outputText := ""
    isTranslating := false
    error := none }

/-- `Object.values(Language)` (src/App.tsx, `sourceOptions`). -/
def sourceOptions : List Language :=
  [Language.AUTO, Language.ENGLISH, Language.CHINESE]

/-- `Object.values(Language).filter(l => l !== Language.AUTO)`
(src/App.tsx, `targetOptions`): the options offered by the target-language
selector. -/
def targetOptions : List Language :=
  sourceOptions.filter (fun l => l != Language.AUTO)

/-- The JavaScript guard `!text.trim()` (src/App.tsx and src/types.ts):
`String.prototype.trim` strips leading and trailing whitespace, so the
guard holds exactly when every character of `text` is whitespace.  The
trimmed string itself is never used anywhere in the source — only this
emptiness test — so the guard is modelled directly. -/
def trimEmpty (text : String) : Bool :=
  text.toList.all Char.isWhitespace

/-- The synchronous start phase of `handleTranslate` (src/App.tsx):
`if (!state.inputText.trim()) return;` then
`setState(prev => ({ ...prev, isTranslating: true, error: null }))`.
The boolean records whether the external call (`translateText`) is issued. -/
def handleTranslateStart (s : TranslationState) : TranslationState × Bool :=
  if trimEmpty s.inputText then (s, false)
  else ({ s with isTranslating := true, error := none }, true)

/-- The resolve phase of `handleTranslate` (src/App.tsx): the state update
applied to the then-current state when the awaited `translateText` call
settles.  On success: `{ ...prev, outputText: result, isTranslating: false }`;
on failure: `{ ...prev, isTranslating: false, error: "Translation failed.
Please check your connection and try again." }` (the caught error is not
inspected). -/
def translateResolve (s : TranslationState) (r : Except String String) :
    TranslationState :=
  match r with
  | Except.ok result =>
      { s with outputText := result, isTranslating := false }
  | Except.error _ =>
      { s with isTranslating := false,
               error := some "Translation failed. Please check your connection and try again." }

/-- The prompt built by `translateText` (src/types.ts): one form when
`sourceLang === Language.AUTO`, another otherwise. -/
def buildPrompt (text : String) (sourceLang targetLang : Language) : String :=
  if sourceLang = Language.AUTO then
    "Translate the following text to " ++ targetLang.label ++ ":\n\n" ++ text
  else
    "Translate the following text from " ++ sourceLang.label ++ " to "
      ++ targetLang.label ++ ":\n\n" ++ text

/-- `translateText` (src/types.ts).  The Gemini backend is opaque:
`generateContent` maps the prompt to either a response text
(`none` models a missing `response.text`, recovered as `""` by
`response.text || ""`) or a transport/model error.  Any such error is
re-thrown as the fixed message `"Failed to translate text. Please try
again."`; the guard returns `""` for empty trimmed input without calling
the backend.  Model id, system instruction and temperature are fixed
configuration of the opaque backend and carry no control flow. -/
def translateText (text : String) (sourceLang targetLang : Language)
    (generateContent : String → Except String (Option String)) :
    Except String String :=
  if trimEmpty text then Except.ok ""
  else
    match generateContent (buildPrompt text sourceLang targetLang) with
    | Except.ok r => Except.ok (r.getD "")
    | Except.error _ => Except.error "Failed to translate text. Please try again."

/-- A complete `handleTranslate` run in which no other state change
interleaves between start and resolve: start, then (if the external call
was issued) resolve with the settled result of `translateText`. -/
def runTranslate (s : TranslationState)
    (generateContent : String → Except String (Option String)) :
    TranslationState :=
  let p := handleTranslateStart s
  if p.2 then
    translateResolve p.1
      (translateText s.inputText s.sourceLang s.targetLang generateContent)
  else p.1

/-- Two rapid `handleTranslate` calls on the same session: the second start
runs on the state left by the first.  The number counts external
invocations issued. -/
def twoRapidTranslateCalls (s : TranslationState) : TranslationState × Nat :=
  let p1 := handleTranslateStart s
  let p2 := handleTranslateStart p1.1
  (p2.1, (if p1.2 then 1 else 0) + (if p2.2 then 1 else 0))

/-- `handleSwapLanguages` (src/App.tsx). -/
def handleSwapLanguages (s : TranslationState) : TranslationState :=
  if s.sourceLang = Language.AUTO then
    { s with sourceLang := s.targetLang
             targetLang := Language.ENGLISH
             inputText := s.outputText
             outputText := s.inputText }
  else
    { s with sourceLang := s.targetLang
             targetLang := s.sourceLang
             inputText := s.outputText
             outputText := s.inputText }

/-- `handleClear` (src/App.tsx):
`setState(prev => ({ ...prev, inputText: '', outputText: '', error: null }))`. -/
def handleClear (s : TranslationState) : TranslationState :=
  { s with inputText := "", outputText := "", error := none }

/-- The source-language selector update (src/App.tsx):
`setState(prev => ({ ...prev, sourceLang: l }))`. -/
def setSourceLang (s : TranslationState) (l : Language) : TranslationState :=
  { s with sourceLang := l }

/-- The target-language selector update (src/App.tsx):
`setState(prev => ({ ...prev, targetLang: l }))`; the selector only offers
`targetOptions`. -/
def setTargetLang (s : TranslationState) (l : Language) : TranslationState :=
  { s with targetLang := l }

/-- The input textarea update / `handlePaste` (src/App.tsx):
`setState(prev => ({ ...prev, inputText: text }))`. -/
def setInputText (s : TranslationState) (t : String) : TranslationState :=
  { s with inputText := t }

/-- One UI-triggered session mutation of src/App.tsx.  `setTarget` carries
the constraint that the chosen language is among `targetOptions`, the only
options offered by the target selector.  `translateFinish` is the resolve
phase of a (possibly stale) translate call, applied to the current state. -/
inductive Step : TranslationState → TranslationState → Prop where
  | swap (s : TranslationState) : Step s (handleSwapLanguages s)
  | clear (s : TranslationState) : Step s (handleClear s)
  | setSource (s : TranslationState) (l : Language) : Step s (setSourceLang s l)
  | setTarget (s : TranslationState) (l : Language) (h : l ∈ targetOptions) :
      Step s (setTargetLang s l)
  | setInput (s : TranslationState) (t : String) : Step s (setInputText s t)
  | translateStart (s : TranslationState) : Step s (handleTranslateStart s).1
  | translateFinish (s : TranslationState) (r : Except String String) :
      Step s (translateResolve s r)

/-- States reachable from the initial state by UI-triggered mutations. -/
inductive Reachable : TranslationState → Prop where
  | init : Reachable initialState
  | step {s s' : TranslationState} :
      Reachable s → Step s s' → Reachable s'

lemma step_target_ne_auto {s s' : TranslationState}
    (h : s.targetLang ≠ Language.AUTO) (hs : Step s s') :
    s'.targetLang ≠ Language.AUTO := by
  cases hs with
  | swap =>
      by_cases hα : s.sourceLang = Language.AUTO
      · simp [handleSwapLanguages, hα]
      · simp [handleSwapLanguages, hα]
  | clear => simpa [handleClear] using h
  | setSource l => simpa [setSourceLang] using h
  | setTarget l hmem =>
      have hl : l ≠ Language.AUTO := by
        have ht : targetOptions = [Language.ENGLISH, Language.CHINESE] := by decide
        rw [ht] at hmem
        simp at hmem
        rcases hmem with rfl | rfl <;> decide
      simpa [setTargetLang] using hl
  | setInput t => simpa [setInputText] using h
  | translateStart =>
      cases hi : trimEmpty s.inputText <;>
        simpa [handleTranslateStart, hi] using h
  | translateFinish r =>
      cases r <;> simpa [translateResolve] using h

lemma target_ne_auto_of_reachable {s : TranslationState} (h : Reachable s) :
    s.targetLang ≠ Language.AUTO := by
  induction h with
  | init => decide
  | step _ hstep ih => exact step_target_ne_auto ih hstep

/-- One `pdf.addImage` placement (src/App.tsx, `handleExportPDF`):
position `(x, y)` and drawn size `w × h`, all in millimetres. -/
structure PlacedImage where
  x : ℚ
  y : ℚ
  w : ℚ
  h : ℚ
deriving DecidableEq

/-- `handleExportPDF` (src/App.tsx).  Inputs: the current `outputText`
(the guard `if (!state.outputText || !outputRef.current) return;` —
modelling the output-text part; the render-surface ref is a DOM concern)
and the captured canvas size in pixels.  `none` means no artifact is
produced.  The artifact is the jsPDF document: a list of pages, each a
list of image placements.  jsPDF is created with one A4 portrait page in
mm (210 × 297); `addPage` is never called, so the single `addImage` lands
on that one page.  `imgWidth = pdfWidth - 20`,
`imgHeight = canvas.height * imgWidth / canvas.width`, and an image taller
than `pdfHeight - 40` is uniformly downscaled by
`ratio = (pdfHeight - 40) / imgHeight` instead of being sliced. -/
def handleExportPDF (outputText : String) (canvasWidth canvasHeight : ℚ) :
    Option (List (List PlacedImage)) :=
  if outputText = "" then none
  else
    let pdfWidth : ℚ := 210
    let pdfHeight : ℚ := 297
    let imgWidth := pdfWidth - 20
    let imgHeight := canvasHeight * imgWidth / canvasWidth
    let yPos : ℚ := 30
    if imgHeight > pdfHeight - 40 then
      let ratio := (pdfHeight - 40) / imgHeight
      some [[⟨10, yPos, imgWidth * ratio, pdfHeight - 40⟩]]
    else
      some [[⟨10, yPos, imgWidth, imgHeight⟩]]

/-- Claim C4: translate() on input that is empty or whitespace-only after
trimming never invokes the external translation function and leaves the
session state entirely unchanged — a no-op, not an error; the guard inside
`translateText` likewise answers `""` without calling the backend. -/
theorem translate_empty_noop (s : TranslationState)
    (gc : String → Except String (Option String))
    (h : trimEmpty s.inputText = true) :
    handleTranslateStart s = (s, false) ∧ runTranslate s gc = s ∧
    translateText s.inputText s.sourceLang s.targetLang gc = Except.ok "" := by
  refine ⟨?_, ?_, ?_⟩ <;>
    simp [handleTranslateStart, runTranslate, translateText, h]

/-- Claim C4 witness: whitespace-only input, with a backend that would
fail if it were ever called. -/
theorem translate_empty_noop_witness :
    handleTranslateStart { initialState with inputText := "  " } =
      ({ initialState with inputText := "  " }, false) ∧
    runTranslate { initialState with inputText := "  " }
        (fun _ => Except.error "boom") =
      { initialState with inputText := "  " } ∧
    translateText ({ initialState with inputText := "  " } : TranslationState).inputText
      ({ initialState with inputText := "  " } : TranslationState).sourceLang
      ({ initialState with inputText := "  " } : TranslationState).targetLang
      (fun _ => Except.error "boom") = Except.ok "" :=
  translate_empty_noop _ _ (by decide)

/-- Claim C8: clear() resets inputText and outputText to empty and the
error message to null, while sourceLang, targetLang and every other field
are unchanged. -/
theorem clear_resets_text_preserves_languages (s : TranslationState) :
    (handleClear s).inputText = "" ∧ (handleClear s).outputText = "" ∧
    (handleClear s).error = none ∧
    (handleClear s).sourceLang = s.sourceLang ∧
    (handleClear s).targetLang = s.targetLang ∧
    (handleClear s).isTranslating = s.isTranslating :=
  ⟨rfl, rfl, rfl, rfl, rfl, rfl⟩

/-- Claim C9: when the external invocation fails, outputText is left
unchanged — a previously displayed translation survives alongside the
error, both across a whole failed run and at the bare resolve step. -/
theorem failure_preserves_outputText (s : TranslationState) (msg : String) :
    (runTranslate s (fun _ => Except.error msg)).outputText = s.outputText ∧
    ∀ e, (translateResolve s (Except.error e)).outputText = s.outputText := by
  constructor
  · cases h : trimEmpty s.inputText <;>
      simp [runTranslate, handleTranslateStart, translateText, translateResolve, h]
  · intro e; rfl

/-- Claim C7: a failed external invocation leaves the session no longer
translating, with the fixed user-facing message as its error — the result
is the same whatever the underlying error text `msg` was, so the cause is
never exposed verbatim. -/
theorem failure_sets_stable_message (s : TranslationState) (msg : String)
    (h : trimEmpty s.inputText = false) :
    runTranslate s (fun _ => Except.error msg) =
      { s with isTranslating := false,
               error := some "Translation failed. Please check your connection and try again." } := by
  simp [runTranslate, handleTranslateStart, translateText, translateResolve, h]

/-- Claim C7 witness: a concrete transport error string is replaced by the
fixed message. -/
theorem failure_sets_stable_message_witness :
    runTranslate { initialState with inputText := "hola" }
        (fun _ => Except.error "ECONNRESET by backend") =
      { initialState with
          inputText := "hola",
          isTranslating := false,
          error := some "Translation failed. Please check your connection and try again." } :=
  failure_sets_stable_message _ "ECONNRESET by backend" (by decide)

/-- Claim C10: with sourceLang = AUTO and targetLang = English (the fixed
fallback default), swapLanguages yields sourceLang = targetLang = English:
no operation prevents source and target from becoming identical. -/
theorem swap_auto_english_collision (s : TranslationState)
    (h1 : s.sourceLang = Language.AUTO)
    (h2 : s.targetLang = Language.ENGLISH) :
    (handleSwapLanguages s).sourceLang = Language.ENGLISH ∧
    (handleSwapLanguages s).targetLang = Language.ENGLISH := by
  simp [handleSwapLanguages, h1, h2]

/-- Claim C10 witness: the initial state is exactly such a session. -/
theorem swap_auto_english_collision_witness :
    (handleSwapLanguages initialState).sourceLang = Language.ENGLISH ∧
    (handleSwapLanguages initialState).targetLang = Language.ENGLISH :=
  swap_auto_english_collision initialState rfl rfl

/-- Claim C5: on any reachable session whose sourceLang ≠ AUTO, swapping
twice restores the whole state — in particular the (sourceLang, targetLang,
inputText, outputText) tuple.  (Reachability supplies the session invariant
targetLang ≠ AUTO, without which the second swap would take the AUTO
branch.) -/
theorem swapLanguages_involution (s : TranslationState) (hr : Reachable s)
    (h : s.sourceLang ≠ Language.AUTO) :
    handleSwapLanguages (handleSwapLanguages s) = s := by
  have ht := target_ne_auto_of_reachable hr
  simp [handleSwapLanguages, h, ht]

/-- Claim C5 witness: the reachable state obtained from the initial state
by selecting Chinese as source. -/
theorem swapLanguages_involution_witness :
    handleSwapLanguages (handleSwapLanguages (setSourceLang initialState Language.CHINESE)) =
      setSourceLang initialState Language.CHINESE :=
  swapLanguages_involution _
    (Reachable.step Reachable.init (Step.setSource initialState Language.CHINESE))
    (by decide)

/-- Claim C6: every reachable session has targetLang ≠ AUTO; AUTO is not
among the options the target selector offers; and swap on an AUTO source
falls back to the fixed default English target instead of AUTO. -/
theorem targetLang_never_auto (s : TranslationState) (hr : Reachable s) :
    s.targetLang ≠ Language.AUTO ∧ Language.AUTO ∉ targetOptions ∧
    (s.sourceLang = Language.AUTO →
      (handleSwapLanguages s).targetLang = Language.ENGLISH) := by
  refine ⟨target_ne_auto_of_reachable hr, by decide, fun hα => ?_⟩
  simp [handleSwapLanguages, hα]

/-- Claim C6 witness: evaluated on the reachable state after one swap of
the initial state. -/
theorem targetLang_never_auto_witness :
    (handleSwapLanguages initialState).targetLang ≠ Language.AUTO ∧
    Language.AUTO ∉ targetOptions ∧
    ((handleSwapLanguages initialState).sourceLang = Language.AUTO →
      (handleSwapLanguages (handleSwapLanguages initialState)).targetLang =
        Language.ENGLISH) :=
  targetLang_never_auto _ (Reachable.step Reachable.init (Step.swap initialState))

/-- Claim C2 counterexample: with a translation already in flight
(isTranslating = true) and non-empty input, handleTranslate still issues
the external call instead of refusing with Busy, and two rapid translate
calls on the same session issue two external invocations, not one. -/
theorem translate_busy_not_refused_cex :
    (handleTranslateStart
      { initialState with inputText := "Bonjour", isTranslating := true }).2 = true ∧
    (twoRapidTranslateCalls { initialState with inputText := "Bonjour" }).2 = 2 := by
  decide

/-- Claim C2 amended: handleTranslate has no InFlight guard — whenever the
trimmed input is non-empty it issues the external call regardless of
isTranslating, and two rapid calls issue two external invocations; only
the empty-input check can stop a call. -/
theorem translate_no_inflight_guard (s : TranslationState)
    (h : trimEmpty s.inputText = false) :
    (handleTranslateStart s).2 = true ∧
    (twoRapidTranslateCalls s).2 = 2 := by
  constructor
  · simp [handleTranslateStart, h]
  · simp [twoRapidTranslateCalls, handleTranslateStart, h]

/-- Claim C2 amended witness. -/
theorem translate_no_inflight_guard_witness :
    (handleTranslateStart { initialState with inputText := "hi" }).2 = true ∧
    (twoRapidTranslateCalls { initialState with inputText := "hi" }).2 = 2 :=
  translate_no_inflight_guard _ (by decide)

/-- Claim C3 counterexample: a session is cleared while a translate call is
in flight; the late success response still mutates the cleared session,
overwriting its (empty) outputText — no generation counter discards it. -/
theorem stale_response_mutates_cex :
    (translateResolve
        (handleClear (handleTranslateStart
          { initialState with inputText := "Bonjour le monde" }).1)
        (Except.ok "Hello world")).outputText = "Hello world" ∧
    (handleClear (handleTranslateStart
        { initialState with inputText := "Bonjour le monde" }).1).outputText = "" ∧
    translateResolve
        (handleClear (handleTranslateStart
          { initialState with inputText := "Bonjour le monde" }).1)
        (Except.ok "Hello world") ≠
      handleClear (handleTranslateStart
        { initialState with inputText := "Bonjour le monde" }).1 := by
  decide

/-- Claim C3 amended: the code keeps no generation counter; the resolve
phase applies to whatever state is current when the response arrives, so a
response from a superseded request — after clear() or after a swap — still
mutates that state, overwriting outputText. -/
theorem stale_response_overwrites (s : TranslationState) (r : String) :
    translateResolve (handleClear s) (Except.ok r) =
      { handleClear s with outputText := r, isTranslating := false } ∧
    translateResolve (handleSwapLanguages s) (Except.ok r) =
      { handleSwapLanguages s with outputText := r, isTranslating := false } :=
  ⟨rfl, rfl⟩

/-- Claim C1 counterexample: outputText "x", captured canvas 380 × 2570 px:
the proportional height is 2570·(210-20)/380 = 1285 mm, exactly 5 page
content heights (297-40 = 257 mm), so policy (b) prescribes 5 pages; the
code emits a single page with the whole image downscaled onto it. -/
theorem export_no_pagination_cex :
    (handleExportPDF "x" 380 2570).map List.length = some 1 ∧
    (2570 * ((210 : ℚ) - 20) / 380) / (297 - 40) = 5 ∧ (1 : ℕ) ≠ 5 := by
  refine ⟨?_, by norm_num, by decide⟩
  norm_num [handleExportPDF]
  exact ⟨_, ⟨by decide, rfl⟩, rfl⟩

/-- Claim C1 amended: the export pipeline implements overflow policy (a):
when the proportional image height `h·(210-20)/w` exceeds the page content
area (297-40 mm), it emits exactly one page holding one placed image,
uniformly downscaled so its height is exactly the content area with the
aspect ratio preserved (p.w·h = p.h·w); no slicing into bands occurs. -/
theorem export_overflow_downscales (t : String) (w h : ℚ)
    (ht : ¬ t = "") (hw : 0 < w)
    (hover : h * (210 - 20) / w > 297 - 40) :
    ∃ p : PlacedImage, handleExportPDF t w h = some [[p]] ∧
      p.h = 297 - 40 ∧ p.w * h = p.h * w := by
  have hh : 0 < h := by
    rcases (div_pos_iff).mp (lt_trans (by norm_num) hover) with ⟨hn, _⟩ | ⟨_, hd⟩
    · nlinarith
    · nlinarith
  refine ⟨⟨10, 30, (210 - 20) * ((297 - 40) / (h * (210 - 20) / w)), 297 - 40⟩,
    ?_, rfl, ?_⟩
  · simp [handleExportPDF, ht, hover]
  · field_simp
    ring

/-- Claim C1 amended witness: a 190 × 514 px canvas gives proportional
height 514 mm > 257 mm; the single page carries the image scaled to
95 × 257 mm. -/
theorem export_overflow_downscales_witness :
    ¬ "x" = "" ∧ (0 : ℚ) < 190 ∧
    ((514 : ℚ) * (210 - 20) / 190 > 297 - 40) ∧
    ∃ p : PlacedImage, handleExportPDF "x" 190 514 = some [[p]] ∧
      p.h = 297 - 40 ∧ p.w * 514 = p.h * 190 :=
  ⟨by decide, by norm_num, by norm_num,
    export_overflow_downscales "x" 190 514 (by decide) (by norm_num) (by norm_num)⟩

end Demo
